import Mathlib

/-!
Shallow embedding of the KPI/aggregation pipeline of `src/app.py`
(Sales-Ecosoft-IT-dashboard).

The script is a Streamlit dashboard; the logic embedded here is the part the
specification documents: ingestion (`load_data`, lines 27-39), the KPI scalars
(lines 58-62, 70-71, 86-88), the synthetic monthly allocation (lines 64-67,
75-83, 116-118) and the customer rollup (lines 169-174).

Monetary amounts are modelled as rationals (pandas sums of floats; the claims
are about exact arithmetic identities, stated here over ℚ).
-/

/-- A row of the `Source_Turnover` sheet: columns `Customer`, `Turnover`,
`Margin` (src/app.py lines 32, 70, 169). -/
structure TurnoverRecord where
  Customer : String
  Turnover : ℚ
  Margin : ℚ
deriving DecidableEq, Repr

/-- A row of the `Source_Portfolio` sheet: columns `Customer`, `Net amount`
(src/app.py lines 33, 71, 170); the space in the column name is dropped. -/
structure PortfolioRecord where
  Customer : String
  NetAmount : ℚ
deriving DecidableEq, Repr

/-- Line 70: `turnover_val = df_turnover['Turnover'].sum()`. -/
def turnover_val (df_turnover : List TurnoverRecord) : ℚ :=
  (df_turnover.map (fun r => r.Turnover)).sum

/-- Line 71: `portfolio_val = df_portfolio['Net amount'].sum()`. -/
def portfolio_val (df_portfolio : List PortfolioRecord) : ℚ :=
  (df_portfolio.map (fun r => r.NetAmount)).sum

/-- Line 86: `total_forecast = turnover_val + portfolio_val`. -/
def total_forecast (turnover portfolio : ℚ) : ℚ := turnover + portfolio

/-- Line 87: `budget_mensile = budget_annuale / 12`. -/
def budget_mensile (budget_annuale : ℚ) : ℚ := budget_annuale / 12

/-- Line 88: `delta_budget = total_forecast - budget_annuale`. -/
def delta_budget (tf budget_annuale : ℚ) : ℚ := tf - budget_annuale

/-- Line 103 computes `((total_forecast/budget_annuale)-1)*100` inside the
`st.metric` f-string, with no guard.  In Python, `total_forecast / 0` raises
`ZeroDivisionError`; Lean's total division on ℚ would silently return 0
instead, so the raised exception is made explicit as `none` and the normal
result as `some`. -/
def pctVsBudget (tf budget_annuale : ℚ) : Option ℚ :=
  if budget_annuale = 0 then none else some ((tf / budget_annuale - 1) * 100)

/-- Lines 77-81 (real-data mode): `weights = np.random.rand(11)`,
`weights = weights / weights.sum()`, `monthly_vals = weights * turnover_val`,
`monthly_vals = np.append(monthly_vals, 0)`.  The 11 pseudo-random draws are
taken as a parameter `weights` (the seeded Mersenne-Twister stream is opaque
here); normalisation, scaling and the appended December zero follow the code. -/
def monthly_vals (weights : List ℚ) (tv : ℚ) : List ℚ :=
  (weights.map (fun w => w / weights.sum * tv)) ++ [0]

/-- Line 117: `df_chart['Cumulativo_Fatturato'] = df_chart['Fatturato'].cumsum()`.
Entry `i` of the result is the sum of entries `0..i` of the input. -/
def cumsum (l : List ℚ) : List ℚ :=
  (List.range l.length).map (fun i => (l.take (i + 1)).sum)

/-- Result of `load_data` (lines 28-39) together with the `st.error` side
channel of line 36: the two optional record sets, plus the user-facing
message emitted on a parse failure. -/
structure IngestOutput where
  df_turnover : Option (List TurnoverRecord)
  df_portfolio : Option (List PortfolioRecord)
  errorMsg : Option String
deriving DecidableEq, Repr

/-- Lines 28-39.  `pd.read_excel` of the two sheets is modelled by a caller
supplied `parse` returning either both record sets or the message of the
exception `e`; the `except` branch (lines 35-37) shows the line-36 message and
returns `(None, None)`, and an absent file (line 39) also gives `(None, None)`. -/
def load_data {ι : Type} (parse : ι → Except String (List TurnoverRecord × List PortfolioRecord))
    (uploaded_file : Option ι) : IngestOutput :=
  match uploaded_file with
  | some f =>
    match parse f with
    | .ok (t, p) => ⟨some t, some p, none⟩
    | .error e =>
      ⟨none, none,
        some ("Errore nella lettura del file: " ++ e ++
          ". Assicurati di usare il file Excel corretto.")⟩
  | none => ⟨none, none, none⟩

/-- Group keys of a pandas `groupby`: the distinct values of the key column,
sorted ascending (pandas `groupby` defaults to `sort=True`). -/
def groupbyKeys (ks : List String) : List String :=
  ks.dedup.mergeSort (fun a b => decide (a ≤ b))

/-- A row of `cust_sales` (line 169): per-customer sums of `Turnover` and
`Margin`. -/
structure CustSalesRow where
  Customer : String
  Turnover : ℚ
  Margin : ℚ
deriving DecidableEq, Repr

/-- A row of `cust_portfolio` (line 170): per-customer sum of `Net amount`,
renamed to `Portfolio`. -/
structure CustPortfolioRow where
  Customer : String
  Portfolio : ℚ
deriving DecidableEq, Repr

/-- Line 169: `cust_sales = df_turnover.groupby('Customer')[['Turnover',
'Margin']].sum().reset_index()`. -/
def cust_sales (df_turnover : List TurnoverRecord) : List CustSalesRow :=
  (groupbyKeys (df_turnover.map (fun r => r.Customer))).map (fun c =>
    ⟨c, ((df_turnover.filter (fun r => r.Customer == c)).map (fun r => r.Turnover)).sum,
        ((df_turnover.filter (fun r => r.Customer == c)).map (fun r => r.Margin)).sum⟩)

/-- Line 170: `cust_portfolio = df_portfolio.groupby('Customer')[['Net
amount']].sum().rename(columns={'Net amount': 'Portfolio'}).reset_index()`. -/
def cust_portfolio (df_portfolio : List PortfolioRecord) : List CustPortfolioRow :=
  (groupbyKeys (df_portfolio.map (fun r => r.Customer))).map (fun c =>
    ⟨c, ((df_portfolio.filter (fun r => r.Customer == c)).map (fun r => r.NetAmount)).sum⟩)

/-- A row of `merged` after line 173: the outer-join columns plus `Totale`. -/
structure MergedRow where
  Customer : String
  Turnover : ℚ
  Margin : ℚ
  Portfolio : ℚ
  Totale : ℚ
deriving DecidableEq, Repr

/-- Lines 172-173: `merged = pd.merge(cust_sales, cust_portfolio,
on='Customer', how='outer').fillna(0)` followed by `merged['Totale'] =
merged['Turnover'] + merged['Portfolio']`.  With the default `sort=False`, a
pandas outer merge lists the left keys in left order and then appends the
right-only keys in right order; unmatched fields are `NaN`, turned into 0 by
`fillna(0)`.  `lookupPortfolio` is the `Portfolio` value a left row with key
`c` receives: the matching right row's value, or the `fillna(0)` default. -/
def lookupPortfolio (ps : List CustPortfolioRow) (c : String) : ℚ :=
  match ps.find? (fun p => p.Customer == c) with
  | some p => p.Portfolio
  | none => 0

/-- Continuation of the lines 172-173 model: the merged table itself. -/
def merged (ls : List CustSalesRow) (ps : List CustPortfolioRow) : List MergedRow :=
  (ls.map (fun l =>
    ⟨l.Customer, l.Turnover, l.Margin, lookupPortfolio ps l.Customer,
      l.Turnover + lookupPortfolio ps l.Customer⟩))
  ++ ((ps.filter (fun p => ! ls.any (fun l => l.Customer == p.Customer))).map
      (fun p => ⟨p.Customer, 0, 0, p.Portfolio, 0 + p.Portfolio⟩))

/-- Line 174, first half: `merged.sort_values('Totale', ascending=False)`.
pandas implements a descending `sort_values` in `pandas.core.sorting.nargsort`
by reversing the rows, running an ascending argsort on the reversed values,
and reversing the resulting indexer again (the GH 6399 double reversal).
With a stable ascending pass - numpy's default `quicksort` runs its stable
insertion-sort branch below 16 elements, and pandas' regression test
`test_sort_values_stable_descending_sort` pins the stable behaviour - the two
reversals cancel on ties, so rows with equal `Totale` keep their original
order.  The ascending pass is modelled by the stable `mergeSort`. -/
def sort_values_Totale_desc (rows : List MergedRow) : List MergedRow :=
  (rows.reverse.mergeSort (fun a b => decide (a.Totale ≤ b.Totale))).reverse

/-- Line 174: `top_10 = merged.sort_values('Totale', ascending=False).head(10)`. -/
def top_10 (rows : List MergedRow) : List MergedRow :=
  (sort_values_Totale_desc rows).take 10

/-- The structured values the script hands to the presentation layer: the KPI
scalars of lines 58-62 / 70-71 / 86-88 and, when real data was loaded, the
rollup tables of lines 169-174 (`merged` for the raw-data expander, `top_10`
for the bar chart). -/
structure DashboardState where
  turnover_val : ℚ
  portfolio_val : ℚ
  total_forecast : ℚ
  budget_mensile : ℚ
  delta_budget : ℚ
  mergedTable : Option (List MergedRow)
  top10Table : Option (List MergedRow)
deriving DecidableEq, Repr

/-- The main script logic on the ingestion result: lines 58-62 take the demo
scalars when `df_turnover is None`; lines 68-71 sum the real columns
otherwise; lines 86-88 derive the forecast KPIs; lines 165-174 build the
customer rollup only under `if df_turnover is not None`.  The combination
`df_turnover` present but `df_portfolio` absent would crash line 71 with a
`TypeError` (no `except` around it), modelled as `none`. -/
def computeDashboard (o : IngestOutput) (budget_annuale : ℚ) : Option DashboardState :=
  match o.df_turnover, o.df_portfolio with
  | none, _ =>
    some ⟨1530000, 450000, total_forecast 1530000 450000, budget_mensile budget_annuale,
      delta_budget (total_forecast 1530000 450000) budget_annuale, none, none⟩
  | some dft, some dfp =>
    let tv := turnover_val dft
    let pv := portfolio_val dfp
    let m := merged (cust_sales dft) (cust_portfolio dfp)
    some ⟨tv, pv, total_forecast tv pv, budget_mensile budget_annuale,
      delta_budget (total_forecast tv pv) budget_annuale, some m, some (top_10 m)⟩
  | some _, none => none

/-- The `DashboardState` produced by the demo branch (lines 58-62): fixed
scalars, derived KPIs, and no rollup tables. -/
def demoState (budget_annuale : ℚ) : DashboardState :=
  ⟨1530000, 450000, total_forecast 1530000 450000, budget_mensile budget_annuale,
    delta_budget (total_forecast 1530000 450000) budget_annuale, none, none⟩

/-- Turnover rows of the worked example in the specification (section 8). -/
def exTurnover : List TurnoverRecord := [⟨"A", 100, 10⟩, ⟨"B", 200, 20⟩]

/-- The worked example's turnover rows in the opposite order. -/
def exTurnoverSwapped : List TurnoverRecord := [⟨"B", 200, 20⟩, ⟨"A", 100, 10⟩]

/-- Portfolio rows of the worked example in the specification (section 8). -/
def exPortfolio : List PortfolioRecord := [⟨"A", 50⟩, ⟨"C", 30⟩]

/-- The worked example's portfolio rows in the opposite order. -/
def exPortfolioSwapped : List PortfolioRecord := [⟨"C", 30⟩, ⟨"A", 50⟩]

/-- Eleven concrete positive weights, standing in for `np.random.rand(11)`. -/
def exWeights : List ℚ := List.replicate 11 1

/-- A parse that always fails, standing in for `pd.read_excel` on a file
without the expected sheets. -/
def failParse : Unit → Except String (List TurnoverRecord × List PortfolioRecord) :=
  fun _ => .error "Worksheet named Source_Turnover not found"

/-! ### Helper lemmas about list sums and grouping -/

/-- Summing `v` over a filtered list equals summing `if p x then v x else 0`
over the whole list. -/
theorem sum_map_filter_eq {α : Type} (l : List α) (p : α → Bool) (v : α → ℚ) :
    ((l.filter p).map v).sum = (l.map (fun x => if p x then v x else 0)).sum := by
  induction l with
  | nil => rfl
  | cons a l ih => by_cases h : p a <;> simp [List.filter_cons, h, ih]

/-- A list sum splits into the part satisfying `p` and the part not. -/
theorem sum_filter_add_sum_not {α : Type} (l : List α) (p : α → Bool) (v : α → ℚ) :
    ((l.filter p).map v).sum + ((l.filter (fun x => ! p x)).map v).sum
      = (l.map v).sum := by
  induction l with
  | nil => simp
  | cons a l ih =>
    by_cases h : p a <;>
      simp [List.filter_cons, h, ← ih] <;> ring

/-- Exchange of a double list sum. -/
theorem sum_map_sum_comm {α β : Type} (K : List β) (l : List α) (f : α → β → ℚ) :
    (K.map (fun c => (l.map (fun x => f x c)).sum)).sum
      = (l.map (fun x => (K.map (fun c => f x c)).sum)).sum := by
  induction K with
  | nil => simp
  | cons c K ih => simp only [List.map_cons, List.sum_cons, List.sum_map_add, ih]

/-- Summing `if a = c then w else 0` over a list not containing `a` gives 0. -/
theorem sum_map_ite_of_not_mem {a : String} {K : List String} (h : a ∉ K) (w : ℚ) :
    (K.map (fun c => if a = c then w else 0)).sum = 0 := by
  induction K with
  | nil => rfl
  | cons c K ih =>
    simp only [List.mem_cons, not_or] at h
    simp [h.1, ih h.2]

/-- Summing `if a = c then w else 0` over a duplicate-free list containing
`a` gives `w`. -/
theorem sum_map_ite_of_nodup {a : String} {K : List String} (hN : K.Nodup) (ha : a ∈ K)
    (w : ℚ) : (K.map (fun c => if a = c then w else 0)).sum = w := by
  induction K with
  | nil => cases ha
  | cons c K ih =>
    rcases List.mem_cons.mp ha with h | h
    · subst h
      have hnot : a ∉ K := (List.nodup_cons.mp hN).1
      simp [sum_map_ite_of_not_mem hnot]
    · have hac : a ≠ c := by
        rintro rfl
        exact (List.nodup_cons.mp hN).1 h
      simp [hac, ih (List.nodup_cons.mp hN).2 h]

/-- The key list of a `groupby` is duplicate-free. -/
theorem groupbyKeys_nodup (ks : List String) : (groupbyKeys ks).Nodup :=
  (List.mergeSort_perm ks.dedup _).symm.nodup (List.nodup_dedup ks)

/-- Membership in the key list of a `groupby` is membership in the column. -/
theorem mem_groupbyKeys {c : String} {ks : List String} : c ∈ groupbyKeys ks ↔ c ∈ ks := by
  unfold groupbyKeys
  rw [List.mem_mergeSort, List.mem_dedup]

/-- Grouping conserves sums: summing the per-group sums of `v` over all group
keys gives the sum of `v` over the original rows. -/
theorem groupby_sum_conserved {α : Type} (l : List α) (key : α → String) (v : α → ℚ) :
    ((groupbyKeys (l.map key)).map
        (fun c => ((l.filter (fun x => key x == c)).map v).sum)).sum
      = (l.map v).sum := by
  have h1 : ∀ c, ((l.filter (fun x => key x == c)).map v).sum
      = (l.map (fun x => if key x = c then v x else 0)).sum := by
    intro c
    rw [sum_map_filter_eq]
    simp only [beq_iff_eq]
  rw [List.map_congr_left (fun c _ => h1 c), sum_map_sum_comm]
  refine congrArg List.sum (List.map_congr_left (fun x hx => ?_))
  exact sum_map_ite_of_nodup (groupbyKeys_nodup _)
    (mem_groupbyKeys.mpr (List.mem_map_of_mem key hx)) (v x)

/-- `find?` over a list of rows built from distinct keys: it returns the row
built from `c` exactly when `c` is among the keys. -/
theorem find?_map_key {β : Type} (f : String → β) (key : β → String)
    (hkey : ∀ k, key (f k) = k) (c : String) :
    ∀ K : List String,
      (K.map f).find? (fun x => key x == c) = if c ∈ K then some (f c) else none := by
  intro K
  induction K with
  | nil => rfl
  | cons k K ih =>
    by_cases h : k = c
    · subst h
      rw [List.map_cons, List.find?_cons_of_pos _ (by simp [hkey])]
      simp [List.mem_cons]
    · rw [List.map_cons, List.find?_cons_of_neg _ (by simp [hkey, h]), ih]
      have hck : c ≠ k := fun e => h e.symm
      simp [List.mem_cons, hck]

/-- `any` over a list of rows built from keys tests key membership. -/
theorem any_map_key {β : Type} (f : String → β) (key : β → String)
    (hkey : ∀ k, key (f k) = k) (c : String) :
    ∀ K : List String, (K.map f).any (fun x => key x == c) = decide (c ∈ K) := by
  intro K
  induction K with
  | nil => simp
  | cons k K ih =>
    simp only [List.map_cons, List.any_cons, ih, hkey]
    by_cases h : k = c
    · simp [List.mem_cons, h]
    · have hck : ¬ c = k := fun e => h e.symm
      by_cases hm : c ∈ K <;> simp [List.mem_cons, h, hck, hm, beq_iff_eq]

/-- The `Portfolio` value a left row with key `c` receives from the outer
join of line 172: the per-customer `Net amount` sum when `c` occurs in
`Source_Portfolio`, otherwise the `fillna(0)` default. -/
theorem lookupPortfolio_cust_portfolio (dfp : List PortfolioRecord) (c : String) :
    lookupPortfolio (cust_portfolio dfp) c
      = if c ∈ groupbyKeys (dfp.map (fun r => r.Customer)) then
          ((dfp.filter (fun r => r.Customer == c)).map (fun r => r.NetAmount)).sum
        else 0 := by
  unfold lookupPortfolio cust_portfolio
  rw [find?_map_key _ CustPortfolioRow.Customer (fun k => rfl) c]
  by_cases h : c ∈ groupbyKeys (dfp.map (fun r => r.Customer)) <;> simp [h]

/-- Every row of `merged` satisfies the line-173 column identity. -/
theorem merged_totale (ls : List CustSalesRow) (ps : List CustPortfolioRow) :
    ∀ r ∈ merged ls ps, r.Totale = r.Turnover + r.Portfolio := by
  intro r hr
  unfold merged at hr
  rcases List.mem_append.mp hr with h | h
  · rcases List.mem_map.mp h with ⟨l, _, rfl⟩
    rfl
  · rcases List.mem_map.mp h with ⟨p, _, rfl⟩
    rfl

/-- Splitting a sum over the union of two duplicate-free key lists: the part
indexed by the left keys (zero off the right keys) plus the part over
right-only keys equals the sum over all right keys. -/
theorem sum_if_mem_add_sum_not_mem (SK PK : List String) (hSK : SK.Nodup)
    (hPK : PK.Nodup) (g : String → ℚ) :
    (SK.map (fun c => if c ∈ PK then g c else 0)).sum
      + ((PK.filter (fun c => ! decide (c ∈ SK))).map g).sum
      = (PK.map g).sum := by
  have h4 : (SK.map (fun c => if c ∈ PK then g c else 0)).sum
      = ((SK.filter (fun c => decide (c ∈ PK))).map g).sum := by
    rw [sum_map_filter_eq]
    simp only [decide_eq_true_eq]
  have n1 : (SK.filter (fun c => decide (c ∈ PK))).Nodup := List.Nodup.filter _ hSK
  have n2 : (PK.filter (fun c => decide (c ∈ SK))).Nodup := List.Nodup.filter _ hPK
  have hperm : (SK.filter (fun c => decide (c ∈ PK))).Perm
      (PK.filter (fun c => decide (c ∈ SK))) := by
    rw [List.perm_ext_iff_of_nodup n1 n2]
    intro a
    simp [List.mem_filter, and_comm]
  rw [h4, (hperm.map g).sum_eq]
  exact sum_filter_add_sum_not _ _ _

/-- Conservation through the rollup of lines 169-173: the `Totale` column of
the full merged table sums to `turnover_val + portfolio_val`. -/
theorem merged_sum_Totale (dft : List TurnoverRecord) (dfp : List PortfolioRecord) :
    ((merged (cust_sales dft) (cust_portfolio dfp)).map (fun r => r.Totale)).sum
      = turnover_val dft + portfolio_val dfp := by
  have hany : ∀ p : CustPortfolioRow,
      ((cust_sales dft).any fun l => l.Customer == p.Customer)
        = decide (p.Customer ∈ groupbyKeys (dft.map (fun r => r.Customer))) := by
    intro p
    unfold cust_sales
    exact any_map_key _ CustSalesRow.Customer (fun k => rfl) p.Customer _
  have h6 : (cust_portfolio dfp).filter
        (fun p => !(cust_sales dft).any fun l => l.Customer == p.Customer)
      = ((groupbyKeys (dfp.map (fun r => r.Customer))).filter
          (fun c => ! decide (c ∈ groupbyKeys (dft.map (fun r => r.Customer))))).map
        (fun c =>
          CustPortfolioRow.mk c
            (((dfp.filter (fun r => r.Customer == c)).map (fun r => r.NetAmount)).sum)) := by
    have hcongr : (cust_portfolio dfp).filter
          (fun p => !(cust_sales dft).any fun l => l.Customer == p.Customer)
        = (cust_portfolio dfp).filter
          (fun p => ! decide (p.Customer ∈ groupbyKeys (dft.map (fun r => r.Customer)))) := by
      apply List.filter_congr
      intro p _
      rw [hany p]
    rw [hcongr]
    unfold cust_portfolio
    rw [List.filter_map]
    rfl
  unfold merged
  rw [List.map_append, List.sum_append, List.map_map, List.map_map]
  show ((cust_sales dft).map
      (fun l => l.Turnover + lookupPortfolio (cust_portfolio dfp) l.Customer)).sum
    + (((cust_portfolio dfp).filter
        (fun p => !(cust_sales dft).any fun l => l.Customer == p.Customer)).map
        (fun p => 0 + p.Portfolio)).sum
    = turnover_val dft + portfolio_val dfp
  rw [List.sum_map_add]
  have h1 : ((cust_sales dft).map (fun l => l.Turnover)).sum = turnover_val dft := by
    unfold cust_sales
    rw [List.map_map]
    exact groupby_sum_conserved dft (fun r => r.Customer) (fun r => r.Turnover)
  have h2 : ((cust_sales dft).map
        (fun l => lookupPortfolio (cust_portfolio dfp) l.Customer)).sum
      = ((groupbyKeys (dft.map (fun r => r.Customer))).map
          (fun c => if c ∈ groupbyKeys (dfp.map (fun r => r.Customer)) then
            ((dfp.filter (fun r => r.Customer == c)).map (fun r => r.NetAmount)).sum
          else 0)).sum := by
    unfold cust_sales
    rw [List.map_map]
    refine congrArg List.sum (List.map_congr_left fun c _ => ?_)
    exact lookupPortfolio_cust_portfolio dfp c
  have h3 : (((cust_portfolio dfp).filter
        (fun p => !(cust_sales dft).any fun l => l.Customer == p.Customer)).map
        (fun p => 0 + p.Portfolio)).sum
      = (((groupbyKeys (dfp.map (fun r => r.Customer))).filter
          (fun c => ! decide (c ∈ groupbyKeys (dft.map (fun r => r.Customer))))).map
          (fun c =>
            ((dfp.filter (fun r => r.Customer == c)).map (fun r => r.NetAmount)).sum)).sum := by
    rw [h6, List.map_map]
    refine congrArg List.sum (List.map_congr_left fun c _ => ?_)
    exact zero_add _
  rw [h1, h2, h3, add_assoc]
  refine congrArg (fun z => turnover_val dft + z) ?_
  rw [sum_if_mem_add_sum_not_mem _ _ (groupbyKeys_nodup _) (groupbyKeys_nodup _)]
  exact groupby_sum_conserved dfp (fun r => r.Customer) (fun r => r.NetAmount)

/-- The last entry of a running cumulative sum is the total sum. -/
theorem cumsum_getLast? (l : List ℚ) (h : l ≠ []) : (cumsum l).getLast? = some l.sum := by
  have hn : 0 < l.length := List.length_pos.mpr h
  have hidx : l.length - 1 < l.length := by omega
  unfold cumsum
  rw [List.getLast?_eq_getElem?, List.length_map, List.length_range,
    List.getElem?_map, List.getElem?_range hidx]
  have h1 : l.length - 1 + 1 = l.length := by omega
  simp [h1, List.take_length]

/-- Dividing every entry by `r` divides the sum by `r`. -/
theorem sum_map_div (l : List ℚ) (r : ℚ) :
    (l.map (fun x => x / r)).sum = l.sum / r := by
  induction l with
  | nil => simp
  | cons a l ih => simp [ih, add_div]

/-- Summing `x / r * t` over a list factors out of the sum. -/
theorem sum_map_div_mul (l : List ℚ) (r t : ℚ) :
    (l.map (fun x => x / r * t)).sum = l.sum / r * t := by
  induction l with
  | nil => simp
  | cons a l ih => simp [ih, add_div, add_mul]

/-! ### Claim theorems -/

/-- C1: evaluation of the line-103 forecast-vs-budget percentage at the
failing input `budget_annuale = 0` (with the demo scalars, so
`total_forecast = 1980000`): the computation produces no value - the
unguarded division raises `ZeroDivisionError` - instead of the sentinel the
claim requires.  The claim matches the documented intent; the code lacks the
guard. -/
theorem claim_C1_zero_budget_raises :
    pctVsBudget (total_forecast 1530000 450000) 0 = none := rfl

/-- C5: for non-empty record sets, `turnover_val` (resp. `portfolio_val`) is
the arithmetic sum of the `Turnover` (resp. `Net amount`) column, and is
invariant under any permutation of the rows. -/
theorem claim_C5_kpi_sum_perm_invariant
    (dft dft2 : List TurnoverRecord) (dfp dfp2 : List PortfolioRecord)
    (hne : dft ≠ []) (hpne : dfp ≠ [])
    (ht : dft.Perm dft2) (hp : dfp.Perm dfp2) :
    turnover_val dft = (dft.map (fun r => r.Turnover)).sum
      ∧ turnover_val dft = turnover_val dft2
      ∧ portfolio_val dfp = (dfp.map (fun r => r.NetAmount)).sum
      ∧ portfolio_val dfp = portfolio_val dfp2 := by
  refine ⟨rfl, ?_, rfl, ?_⟩
  · unfold turnover_val
    exact (ht.map (fun r => r.Turnover)).sum_eq
  · unfold portfolio_val
    exact (hp.map (fun r => r.NetAmount)).sum_eq

/-- Witness for C5 at the worked example's rows and their swapped order. -/
theorem claim_C5_witness :
    (exTurnover ≠ [] ∧ exPortfolio ≠ [])
    ∧ (turnover_val exTurnover = (exTurnover.map (fun r => r.Turnover)).sum
      ∧ turnover_val exTurnover = turnover_val exTurnoverSwapped
      ∧ portfolio_val exPortfolio = (exPortfolio.map (fun r => r.NetAmount)).sum
      ∧ portfolio_val exPortfolio = portfolio_val exPortfolioSwapped) :=
  ⟨⟨by decide, by decide⟩,
    claim_C5_kpi_sum_perm_invariant exTurnover exTurnoverSwapped exPortfolio
      exPortfolioSwapped (by decide) (by decide)
      (List.Perm.swap _ _ _) (List.Perm.swap _ _ _)⟩

/-- C6: in every branch the pipeline takes (demo or real data),
`total_forecast` is exactly `turnover_val + portfolio_val` and
`budget_mensile` is `budget_annuale / 12`. -/
theorem claim_C6_forecast_and_budget (o : IngestOutput) (budget_annuale : ℚ)
    (s : DashboardState) (h : computeDashboard o budget_annuale = some s) :
    s.total_forecast = s.turnover_val + s.portfolio_val
    ∧ s.budget_mensile = budget_annuale / 12 := by
  rcases o with ⟨dft, dfp, msg⟩
  cases dft with
  | none =>
    simp only [computeDashboard, Option.some.injEq] at h
    subst h
    exact ⟨rfl, rfl⟩
  | some dft =>
    cases dfp with
    | none => simp [computeDashboard] at h
    | some dfp =>
      simp only [computeDashboard, Option.some.injEq] at h
      subst h
      exact ⟨rfl, rfl⟩

/-- Witness for C6 in the demo branch with a zero budget. -/
theorem claim_C6_witness :
    computeDashboard ⟨none, none, none⟩ 0 = some (demoState 0)
    ∧ ((demoState 0).total_forecast
        = (demoState 0).turnover_val + (demoState 0).portfolio_val
      ∧ (demoState 0).budget_mensile = 0 / 12) :=
  ⟨rfl, claim_C6_forecast_and_budget ⟨none, none, none⟩ 0 (demoState 0) rfl⟩

/-- C7: when parsing fails, `load_data` does not propagate the exception: its
record sets equal those of the no-input call, and the line-36 message shown
to the user carries the underlying cause `e`. -/
theorem claim_C7_parse_failure_no_data {ι : Type}
    (parse : ι → Except String (List TurnoverRecord × List PortfolioRecord))
    (f : ι) (e : String) (h : parse f = .error e) :
    (load_data parse (some f)).df_turnover = (load_data parse none).df_turnover
    ∧ (load_data parse (some f)).df_portfolio = (load_data parse none).df_portfolio
    ∧ (load_data parse (some f)).errorMsg
        = some ("Errore nella lettura del file: " ++ e ++
            ". Assicurati di usare il file Excel corretto.") := by
  simp only [load_data]
  rw [h]
  exact ⟨rfl, rfl, rfl⟩

/-- Witness for C7 with a parse that fails on a missing sheet. -/
theorem claim_C7_witness :
    (load_data failParse (some ())).df_turnover = (load_data failParse none).df_turnover
    ∧ (load_data failParse (some ())).df_portfolio
        = (load_data failParse none).df_portfolio
    ∧ (load_data failParse (some ())).errorMsg
        = some ("Errore nella lettura del file: "
            ++ "Worksheet named Source_Turnover not found"
            ++ ". Assicurati di usare il file Excel corretto.") :=
  claim_C7_parse_failure_no_data failParse ()
    "Worksheet named Source_Turnover not found" rfl

/-- C8: with no uploaded file, ingestion returns no data, the KPI scalars are
the fixed demo values `1530000` and `450000`, and no rollup table (merged or
top-10) is produced. -/
theorem claim_C8_no_input_demo {ι : Type}
    (parse : ι → Except String (List TurnoverRecord × List PortfolioRecord))
    (budget_annuale : ℚ) :
    load_data parse none = ⟨none, none, none⟩
    ∧ computeDashboard (load_data parse none) budget_annuale
        = some (demoState budget_annuale)
    ∧ (demoState budget_annuale).turnover_val = 1530000
    ∧ (demoState budget_annuale).portfolio_val = 450000
    ∧ (demoState budget_annuale).mergedTable = none
    ∧ (demoState budget_annuale).top10Table = none :=
  ⟨rfl, rfl, rfl, rfl, rfl, rfl⟩

/-- C10: `load_data` returns both record sets or neither, for every input. -/
theorem claim_C10_both_or_neither {ι : Type}
    (parse : ι → Except String (List TurnoverRecord × List PortfolioRecord))
    (uploaded_file : Option ι) :
    ((load_data parse uploaded_file).df_turnover = none
      ∧ (load_data parse uploaded_file).df_portfolio = none)
    ∨ (∃ t p, (load_data parse uploaded_file).df_turnover = some t
      ∧ (load_data parse uploaded_file).df_portfolio = some p) := by
  cases uploaded_file with
  | none => exact Or.inl ⟨rfl, rfl⟩
  | some f =>
    simp only [load_data]
    cases hp : parse f with
    | ok tp =>
      obtain ⟨t, p⟩ := tp
      exact Or.inr ⟨t, p, rfl, rfl⟩
    | error e => exact Or.inl ⟨rfl, rfl⟩

/-- C2: in real-data mode, with the 11 positive pseudo-random weights taken
abstractly, the normalised weights sum to 1, the allocation has 12 entries
with month 12 forced to zero, and the cumulative allocated turnover at month
12 equals `turnover_val`. -/
theorem claim_C2_monthly_allocation (weights : List ℚ) (tv : ℚ)
    (hlen : weights.length = 11) (hpos : ∀ w ∈ weights, 0 < w) :
    (weights.map (fun w => w / weights.sum)).sum = 1
    ∧ (monthly_vals weights tv).length = 12
    ∧ (monthly_vals weights tv).getLast? = some 0
    ∧ (cumsum (monthly_vals weights tv)).getLast? = some tv := by
  have hne : weights ≠ [] := by
    intro hw
    rw [hw] at hlen
    exact absurd hlen (by decide)
  have hS : (0 : ℚ) < weights.sum := List.sum_pos weights hpos hne
  have hS0 : weights.sum ≠ 0 := ne_of_gt hS
  have hsum : (monthly_vals weights tv).sum = tv := by
    unfold monthly_vals
    rw [List.sum_append, sum_map_div_mul, div_self hS0, one_mul]
    simp
  refine ⟨?_, ?_, ?_, ?_⟩
  · rw [sum_map_div, div_self hS0]
  · simp [monthly_vals, hlen]
  · exact List.getLast?_concat _
  · have hmn : monthly_vals weights tv ≠ [] := by simp [monthly_vals]
    rw [cumsum_getLast? _ hmn, hsum]

/-- Witness for C2 with eleven unit weights and `turnover_val = 44`. -/
theorem claim_C2_witness :
    (exWeights.length = 11 ∧ ∀ w ∈ exWeights, 0 < w)
    ∧ ((exWeights.map (fun w => w / exWeights.sum)).sum = 1
      ∧ (monthly_vals exWeights 44).length = 12
      ∧ (monthly_vals exWeights 44).getLast? = some 0
      ∧ (cumsum (monthly_vals exWeights 44)).getLast? = some 44) :=
  ⟨⟨by decide, by decide⟩,
    claim_C2_monthly_allocation exWeights 44 (by decide) (by decide)⟩

/-- C4: a customer present in only one of the two record sets still gets a
merged row, with the missing side's columns zero-filled - portfolio-only
customers get `Turnover = 0` and `Margin = 0`, turnover-only customers get
`Portfolio = 0` - and every merged row satisfies
`Totale = Turnover + Portfolio`. -/
theorem claim_C4_outer_join_zero_fill (dft : List TurnoverRecord)
    (dfp : List PortfolioRecord) (c : String) :
    (c ∈ dfp.map (fun r => r.Customer) → c ∉ dft.map (fun r => r.Customer) →
      ∃ r ∈ merged (cust_sales dft) (cust_portfolio dfp),
        r.Customer = c ∧ r.Turnover = 0 ∧ r.Margin = 0)
    ∧ (c ∈ dft.map (fun r => r.Customer) → c ∉ dfp.map (fun r => r.Customer) →
      ∃ r ∈ merged (cust_sales dft) (cust_portfolio dfp),
        r.Customer = c ∧ r.Portfolio = 0)
    ∧ ∀ r ∈ merged (cust_sales dft) (cust_portfolio dfp),
        r.Totale = r.Turnover + r.Portfolio := by
  refine ⟨?_, ?_, merged_totale _ _⟩
  · intro hin hout
    have hcPK : c ∈ groupbyKeys (dfp.map (fun r => r.Customer)) := mem_groupbyKeys.mpr hin
    have hcSK : c ∉ groupbyKeys (dft.map (fun r => r.Customer)) :=
      fun hmem => hout (mem_groupbyKeys.mp hmem)
    have hrow : (⟨c, ((dfp.filter (fun r => r.Customer == c)).map
        (fun r => r.NetAmount)).sum⟩ : CustPortfolioRow) ∈ cust_portfolio dfp := by
      unfold cust_portfolio
      exact List.mem_map_of_mem _ hcPK
    have hany : ((cust_sales dft).any fun l => l.Customer == c) = false := by
      unfold cust_sales
      rw [any_map_key _ CustSalesRow.Customer (fun k => rfl) c]
      simpa using hcSK
    have hfil : (⟨c, ((dfp.filter (fun r => r.Customer == c)).map
        (fun r => r.NetAmount)).sum⟩ : CustPortfolioRow)
        ∈ (cust_portfolio dfp).filter
          (fun p => ! (cust_sales dft).any fun l => l.Customer == p.Customer) :=
      List.mem_filter.mpr ⟨hrow, by simp [hany]⟩
    refine ⟨⟨c, 0, 0,
        ((dfp.filter (fun r => r.Customer == c)).map (fun r => r.NetAmount)).sum,
        0 + ((dfp.filter (fun r => r.Customer == c)).map (fun r => r.NetAmount)).sum⟩,
      ?_, rfl, rfl, rfl⟩
    unfold merged
    exact List.mem_append_right _ (List.mem_map_of_mem _ hfil)
  · intro hin hout
    have hcSK : c ∈ groupbyKeys (dft.map (fun r => r.Customer)) := mem_groupbyKeys.mpr hin
    have hcPK : c ∉ groupbyKeys (dfp.map (fun r => r.Customer)) :=
      fun hmem => hout (mem_groupbyKeys.mp hmem)
    have hlp : lookupPortfolio (cust_portfolio dfp) c = 0 := by
      rw [lookupPortfolio_cust_portfolio]
      exact if_neg hcPK
    have hsrow : (⟨c,
        ((dft.filter (fun r => r.Customer == c)).map (fun r => r.Turnover)).sum,
        ((dft.filter (fun r => r.Customer == c)).map (fun r => r.Margin)).sum⟩
        : CustSalesRow) ∈ cust_sales dft := by
      unfold cust_sales
      exact List.mem_map_of_mem _ hcSK
    refine ⟨⟨c,
        ((dft.filter (fun r => r.Customer == c)).map (fun r => r.Turnover)).sum,
        ((dft.filter (fun r => r.Customer == c)).map (fun r => r.Margin)).sum,
        lookupPortfolio (cust_portfolio dfp) c,
        ((dft.filter (fun r => r.Customer == c)).map (fun r => r.Turnover)).sum
          + lookupPortfolio (cust_portfolio dfp) c⟩,
      ?_, rfl, hlp⟩
    unfold merged
    exact List.mem_append_left _ (List.mem_map_of_mem _ hsrow)

/-- Witness for C4 at the worked example: customer `C` appears only in the
portfolio sheet and customer `B` only in the turnover sheet. -/
theorem claim_C4_witness :
    (∃ r ∈ merged (cust_sales exTurnover) (cust_portfolio exPortfolio),
        r.Customer = "C" ∧ r.Turnover = 0 ∧ r.Margin = 0)
    ∧ (∃ r ∈ merged (cust_sales exTurnover) (cust_portfolio exPortfolio),
        r.Customer = "B" ∧ r.Portfolio = 0)
    ∧ ∀ r ∈ merged (cust_sales exTurnover) (cust_portfolio exPortfolio),
        r.Totale = r.Turnover + r.Portfolio :=
  ⟨(claim_C4_outer_join_zero_fill exTurnover exPortfolio "C").1 (by decide) (by decide),
    (claim_C4_outer_join_zero_fill exTurnover exPortfolio "B").2.1 (by decide) (by decide),
    (claim_C4_outer_join_zero_fill exTurnover exPortfolio "C").2.2⟩

/-- C9: the grouping, outer join, zero fill and `Totale` column neither lose
nor duplicate value: the `Totale` column of the full merged table (before the
`head(10)` truncation) sums exactly to `turnover_val + portfolio_val`.  In
this typed model every row carries a `Customer` key by construction, so the
claim's proviso holds automatically. -/
theorem claim_C9_rollup_conserves_totals (dft : List TurnoverRecord)
    (dfp : List PortfolioRecord) :
    ((merged (cust_sales dft) (cust_portfolio dfp)).map (fun r => r.Totale)).sum
      = turnover_val dft + portfolio_val dfp :=
  merged_sum_Totale dft dfp
